import Mathlib

/-
  Verification development for the TeachSmart recommendation engine
  (src/python-server/teachsmart_for_project.py and src/standalone_pkl_usage.py).

  The Python code is shallowly embedded: dictionaries whose iteration order is
  load-bearing become ordered lists, Python floats of the assessment pipeline
  become rationals, the external classifier/vectorizer pair becomes an abstract
  environment record, and the small regular-expression dialect used by the rule
  table and the greeting detector becomes an executable matcher over character
  lists.  String handling is modelled on the ASCII fragment of the Python
  semantics (lower, strip, the class backslash-s), which covers every string
  the program and the claims use.
-/

set_option maxRecDepth 10000
set_option maxHeartbeats 1000000

/-- Characters accepted by the regex class backslash-s and stripped by str.strip,
restricted to the ASCII fragment of the Python semantics. -/
def isWS (c : Char) : Bool :=
  c == ' ' || c == '\t' || c == '\n' || c == '\r' || c == '\x0b' || c == '\x0c'

/-- Python str.lower, modelled on the ASCII fragment via Char.toLower. -/
def pyLower (s : String) : List Char := s.data.map Char.toLower

/-- Python str.strip with no argument: drop leading and trailing whitespace. -/
def pyStrip (l : List Char) : List Char :=
  ((l.dropWhile isWS).reverse.dropWhile isWS).reverse

/-- Whether the first list is a prefix of the second (used to model Python
substring search and str.startswith). -/
def startsWithL : List Char → List Char → Bool
  | [], _ => true
  | _ :: _, [] => false
  | c :: cs, d :: ds => c == d && startsWithL cs ds

/-- The Python substring test: pat in text. -/
def containsSub (pat : List Char) : List Char → Bool
  | [] => pat.isEmpty
  | c :: cs => startsWithL pat (c :: cs) || containsSub pat cs

/-- Quantifier of a regex character class: exactly one, at most one, or any number. -/
inductive Quant
  | one
  | opt
  | star

/-- One item of a regular-expression sequence: a literal character or a character
class with a quantifier.  A class-plus is encoded as a one item followed by a star
item, and alternation groups are expanded into one sequence per alternative at
the definition sites, so a whole pattern is a list of sequences. -/
inductive GItem
  | lit (c : Char)
  | cls (f : Char → Bool) (q : Quant)

/-- Backtracking matcher for a sequence of regex items against text starting at the
first character.  With exact = true the whole text must be consumed (the pattern is
anchored at both ends); with exact = false trailing text is allowed.  The star case
tries every number of class characters the text offers, which gives the plain
existence semantics of re.search. -/
def matchSeq (exact : Bool) : List GItem → List Char → Bool
  | [], ds => if exact then ds.isEmpty else true
  | GItem.lit _ :: _, [] => false
  | GItem.lit c :: ps, d :: ds => c == d && matchSeq exact ps ds
  | GItem.cls _ Quant.one :: _, [] => false
  | GItem.cls f Quant.one :: ps, d :: ds => f d && matchSeq exact ps ds
  | GItem.cls f Quant.opt :: ps, ds =>
      matchSeq exact ps ds ||
        (match ds with
         | [] => false
         | d :: ds2 => f d && matchSeq exact ps ds2)
  | GItem.cls f Quant.star :: ps, ds =>
      (List.range ((ds.takeWhile f).length + 1)).any (fun k => matchSeq exact ps (ds.drop k))

/-- re.search of one unanchored sequence: try every start position. -/
def searchSeq (p : List GItem) : List Char → Bool
  | [] => matchSeq false p []
  | d :: ds => matchSeq false p (d :: ds) || searchSeq p ds

/-- re.search of an alternation of sequences. -/
def rsearch (pats : List (List GItem)) (text : List Char) : Bool :=
  pats.any (fun p => searchSeq p text)

/-- The item sequence of a plain keyword. -/
def lits (s : String) : List GItem := s.data.map GItem.lit

/-- Python str.replace on character lists: replace every non-overlapping occurrence
scanning left to right.  Fuelled structural recursion with fuel = text length, which
is enough because each step consumes at least one character (the program only
replaces non-empty patterns). -/
def replaceAllAux (pat rep : List Char) : Nat → List Char → List Char
  | 0, text => text
  | _ + 1, [] => []
  | fuel + 1, c :: cs =>
      if startsWithL pat (c :: cs) && !pat.isEmpty then
        rep ++ replaceAllAux pat rep fuel ((c :: cs).drop pat.length)
      else
        c :: replaceAllAux pat rep fuel cs

/-- Python str.replace. -/
def replaceAll (pat rep text : String) : String :=
  String.mk (replaceAllAux pat.data rep.data text.data.length text.data)

/-- An activity record of the rule table (lines 383-598) or of the per-label defaults
(lines 636-679).  The stored rule-table entries carry no type key (it is attached on
match, line 615), which is modelled by the empty string there; the defaults carry
their type inline.  The optional fields appear only after personalization. -/
structure Activity where
  name : String
  description : String
  materials : List String
  steps : List String
  duration : String
  level : String
  type : String
  age_note : Option String := none
  personalization : Option String := none
deriving DecidableEq, Repr

/-- One entry of the per-label rule table: the source text of the keyword pattern
(reported as matched_keywords), its compiled form, the activity type attached on
match, and the stored template. -/
structure RuleEntry where
  src : String
  pat : List (List GItem)
  rtype : String
  activity : Activity

/-- The class inside turn[ws-or-hyphen]?taking. -/
def wsDash (c : Char) : Bool := isWS c || c == '-'

/-- Compiled form of the alternative turn[ws-or-hyphen]?taking. -/
def turnTakingSeq : List GItem :=
  lits "turn" ++ [GItem.cls wsDash Quant.opt] ++ lits "taking"

/-- Rule list for label 0 (Struggling), lines 383-453, in dict insertion order. -/
def rules0 : List RuleEntry :=
  [ { src := "tantrum|meltdown|marah|menangis|crying|upset",
      pat := [lits "tantrum", lits "meltdown", lits "marah", lits "menangis",
              lits "crying", lits "upset"],
      rtype := "calming_sensory",
      activity :=
        { name := "Deep Pressure Calm Down",
          description := "Use weighted lap pad and deep breathing with favorite stuffed animal",
          materials := ["Weighted lap pad", "Soft stuffed animal", "Quiet space"],
          steps :=
            ["Guide student to quiet corner with dim lighting",
             "Place weighted lap pad on student\x27s lap",
             "Model slow breathing: \x27Breathe in like smelling flowers, out like blowing bubbles\x27",
             "Stay nearby but give space",
             "Wait for student to signal readiness to return"],
          duration := "5-10 minutes",
          level := "immediate support",
          type := "" } },
    { src := "tidak bisa konsentrasi|hyperactive|tidak fokus|can\x27t focus|attention",
      pat := [lits "tidak bisa konsentrasi", lits "hyperactive", lits "tidak fokus",
              lits "can\x27t focus", lits "attention"],
      rtype := "attention_regulation",
      activity :=
        { name := "Focus Basket Activity",
          description := "Simple sorting task with immediate success",
          materials := ["2 baskets", "5 large colorful objects", "Timer"],
          steps :=
            ["Set timer for 2 minutes only",
             "Show 2 baskets: red objects and blue objects",
             "Start with just 3 objects total",
             "Celebrate each correct placement immediately",
             "Stop before student gets frustrated"],
          duration := "2-3 minutes",
          level := "immediate support",
          type := "" } },
    { src := "tidak mau|menolak|aggressive|refuses|won\x27t participate",
      pat := [lits "tidak mau", lits "menolak", lits "aggressive", lits "refuses",
              lits "won\x27t participate"],
      rtype := "engagement_building",
      activity :=
        { name := "Choice-Based Engagement",
          description := "Offer 2 simple choices to rebuild cooperation",
          materials := ["2 preferred activities", "Visual choice board"],
          steps :=
            ["Present 2 choices visually: \x27Do you want blocks or puzzles?\x27",
             "Honor the choice immediately",
             "Start with 1-minute activity",
             "End on positive note before resistance builds",
             "Gradually increase expectations"],
          duration := "1-2 minutes",
          level := "immediate support",
          type := "" } },
    { src := "turn[\\s\\-]?taking|sharing|won\x27t share|grabbing|taking toys|teach turn|how do i teach turn",
      pat := [turnTakingSeq, lits "sharing", lits "won\x27t share", lits "grabbing",
              lits "taking toys", lits "teach turn", lits "how do i teach turn"],
      rtype := "basic_social_skills",
      activity :=
        { name := "Simple Turn-Taking with Timer",
          description := "Very basic turn-taking with highly preferred item and visual timer",
          materials := ["One highly preferred toy/activity", "Visual timer", "Turn-taking cards"],
          steps :=
            ["Start with just 10-15 seconds per turn",
             "Use visual timer that student can see counting down",
             "Hold up \x27My Turn\x27 card when it\x27s student\x27s turn",
             "Hold up \x27Your Turn\x27 card when it\x27s adult\x27s turn",
             "Immediately give item when timer goes off",
             "Celebrate: \x27Great waiting!\x27 when student waits"],
          duration := "3-5 minutes total",
          level := "immediate support",
          type := "" } } ]

/-- Rule list for label 1 (Progressing), lines 454-509, in dict insertion order. -/
def rules1 : List RuleEntry :=
  [ { src := "count|counting|numbers|math",
      pat := [lits "count", lits "counting", lits "numbers", lits "math"],
      rtype := "math_support",
      activity :=
        { name := "Counting Bears Adventure",
          description := "Use teddy bear counters in favorite colors",
          materials := ["Teddy bear counters", "Ice cube trays", "Number cards 1-10"],
          steps :=
            ["Start with 5 colorful teddy bears",
             "Show how to place one bear in each ice cube compartment",
             "Count together: \x27One bear, two bears, three bears...\x27",
             "Let student try with 3 bears first, then build up",
             "Sing counting songs while placing bears"],
          duration := "8-12 minutes",
          level := "developing with support",
          type := "" } },
    { src := "bantu|bantuan|dengan bantuan|perlu bantuan|needs help|with help",
      pat := [lits "bantu", lits "bantuan", lits "dengan bantuan", lits "perlu bantuan",
              lits "needs help", lits "with help"],
      rtype := "assisted_learning",
      activity :=
        { name := "Hand-Over-Hand Number Matching",
          description := "Match number cards 1-3 with physical guidance",
          materials := ["Large number cards 1-3", "Matching objects", "Visual supports"],
          steps :=
            ["Place number card 1 on table",
             "Guide student\x27s hand to pick up 1 object",
             "Help place object on number card",
             "Say: \x27One object on number one!\x27",
             "Gradually reduce physical support",
             "Celebrate each success immediately"],
          duration := "5-8 minutes",
          level := "developing with support",
          type := "" } },
    { src := "turn[\\s\\-]?taking|sharing|social skills|playing with others|teach turn|how do i teach turn",
      pat := [turnTakingSeq, lits "sharing", lits "social skills", lits "playing with others",
              lits "teach turn", lits "how do i teach turn"],
      rtype := "social_skills_development",
      activity :=
        { name := "Turn-Taking with Visual Supports",
          description := "Practice turn-taking with clear visual cues and structured routine",
          materials := ["Preferred activity/toy", "Turn-taking visual cards",
                        "Sand timer (1-2 minutes)", "Social story about turn-taking"],
          steps :=
            ["Read simple social story about turn-taking first",
             "Show \x27My Turn\x27 and \x27Your Turn\x27 cards clearly",
             "Start with 30-second turns using sand timer",
             "Model appropriate language: \x27My turn now\x27 and \x27Your turn next\x27",
             "Practice with adult first, then introduce peer if ready",
             "Praise waiting behavior: \x27Great job waiting for your turn!\x27",
             "Gradually increase turn length to 1-2 minutes"],
          duration := "10-15 minutes",
          level := "developing with support",
          type := "" } } ]

/-- Rule list for label 2 (Thriving), lines 510-597, in dict insertion order. -/
def rules2 : List RuleEntry :=
  [ { src := "mandiri|sendiri|bisa sendiri|independent|can do alone",
      pat := [lits "mandiri", lits "sendiri", lits "bisa sendiri", lits "independent",
              lits "can do alone"],
      rtype := "independent_challenge",
      activity :=
        { name := "Multi-Step Problem Solving",
          description := "Complete 4-step sequence independently",
          materials := ["Complex puzzle", "Multi-step instructions", "Self-check list"],
          steps :=
            ["Present 4-step visual instruction card",
             "Student reads/interprets steps independently",
             "Provide materials but minimal guidance",
             "Student self-checks work against model",
             "Encourage problem-solving when stuck"],
          duration := "12-15 minutes",
          level := "independent challenge",
          type := "" } },
    { src := "baik|bagus|excellent|sempurna|doing well|great progress",
      pat := [lits "baik", lits "bagus", lits "excellent", lits "sempurna",
              lits "doing well", lits "great progress"],
      rtype := "extension_activity",
      activity :=
        { name := "Creative Extension Challenge",
          description := "Apply learned skills in new creative way",
          materials := ["Open-ended materials", "Challenge card", "Documentation tools"],
          steps :=
            ["Present open-ended challenge: \x27Create your own pattern using any materials\x27",
             "Student chooses materials and approach",
             "Student explains their thinking process",
             "Student documents their creation",
             "Student presents to others"],
          duration := "15-20 minutes",
          level := "independent challenge",
          type := "" } },
    { src := "siap|ready|next level|advanced|challenge",
      pat := [lits "siap", lits "ready", lits "next level", lits "advanced",
              lits "challenge"],
      rtype := "advanced_skill",
      activity :=
        { name := "Peer Collaboration Project",
          description := "Work with peer to complete complex task",
          materials := ["Collaborative materials", "Role cards", "Project rubric"],
          steps :=
            ["Assign complementary roles to each student",
             "Students plan approach together",
             "Students divide tasks and work collaboratively",
             "Students check each other\x27s work",
             "Students present joint project"],
          duration := "20-25 minutes",
          level := "independent challenge",
          type := "" } },
    { src := "shapes|colors|sorting|classification",
      pat := [lits "shapes", lits "colors", lits "sorting", lits "classification"],
      rtype := "advanced_academic",
      activity :=
        { name := "Complex Shape Sorting Challenge",
          description := "Sort shapes by multiple attributes independently",
          materials := ["Various shapes in multiple colors and sizes", "Sorting mats",
                        "Recording sheet"],
          steps :=
            ["Present shapes with 3 attributes: color, size, shape",
             "Student creates own sorting rule",
             "Student explains their sorting logic",
             "Student records results on sheet",
             "Student teaches sorting rule to peer"],
          duration := "15-18 minutes",
          level := "independent challenge",
          type := "" } },
    { src := "turn[\\s\\-]?taking|sharing|social skills|peer interaction|group work|teach turn|how do i teach turn",
      pat := [turnTakingSeq, lits "sharing", lits "social skills", lits "peer interaction",
              lits "group work", lits "teach turn", lits "how do i teach turn"],
      rtype := "advanced_social_skills",
      activity :=
        { name := "Flexible Turn-Taking Leadership",
          description := "Lead turn-taking activities with peers and teach others",
          materials := ["Multiple activities for choice", "Turn-taking rule cards",
                        "Timer options", "Peer group"],
          steps :=
            ["Student chooses activity and explains rules to peers",
             "Student demonstrates appropriate turn-taking language",
             "Student helps peers negotiate turn length and order",
             "Student models problem-solving when conflicts arise",
             "Student leads reflection: \x27How did our turn-taking go?\x27",
             "Student teaches turn-taking strategies to younger students"],
          duration := "20-25 minutes",
          level := "independent challenge",
          type := "" } } ]

/-- The per-label rule table (self.activity_rules, loaded once at line 87).  A Python
dict iterates in insertion order, so each label holds an ordered list; an unknown
label yields the empty rule list (the dict get with default at line 604). -/
def activity_rules (label : Int) : List RuleEntry :=
  if label = 0 then rules0
  else if label = 1 then rules1
  else if label = 2 then rules2
  else []

/-- Default activity for label 0 (lines 637-650). -/
def default_activity_0 : Activity :=
  { name := "Basic Calming Activity",
    description := "Simple sensory break to help student regulate",
    materials := ["Quiet space", "Preferred comfort item"],
    steps :=
      ["Offer quiet space away from stimulation",
       "Provide preferred comfort item",
       "Use calm, quiet voice",
       "Wait for student to self-regulate"],
    duration := "5-10 minutes",
    level := "immediate support",
    type := "default_calming" }

/-- Default activity for label 1 (lines 651-664). -/
def default_activity_1 : Activity :=
  { name := "Supported Learning Activity",
    description := "Simple task with adult guidance",
    materials := ["Age-appropriate materials", "Visual supports"],
    steps :=
      ["Present simple, clear task",
       "Provide visual and verbal prompts",
       "Offer physical guidance as needed",
       "Celebrate small successes"],
    duration := "5-8 minutes",
    level := "developing with support",
    type := "default_supported" }

/-- Default activity for label 2 (lines 665-678). -/
def default_activity_2 : Activity :=
  { name := "Independent Challenge",
    description := "Self-directed learning opportunity",
    materials := ["Challenging but achievable materials"],
    steps :=
      ["Present clear expectations",
       "Allow independent problem-solving",
       "Provide encouragement from distance",
       "Celebrate achievement and effort"],
    duration := "10-15 minutes",
    level := "independent challenge",
    type := "default_independent" }

/-- The defaults dict of _get_default_activity_for_label (lines 636-679), kept as an
association list so that the per-label uniqueness of the default is a statement
about the table rather than an artifact of using a function. -/
def default_activities : List (Int × Activity) :=
  [(0, default_activity_0), (1, default_activity_1), (2, default_activity_2)]

/-- _get_default_activity_for_label (lines 634-680): look the label up in the defaults
dict, falling back to the label-1 default (defaults.get(label, defaults[1])). -/
def get_default_activity_for_label (label : Int) : Activity :=
  ((default_activities.find? (fun p => p.1 == label)).map Prod.snd).getD default_activity_1

/-- The matched-activity record built at lines 613-615: a copy of the stored template
with the type of the rule attached. -/
def mk_matched (e : RuleEntry) : Activity := { e.activity with type := e.rtype }

/-- The matcher core of _find_matching_activity (lines 603-621): lower-case the note,
scan the rule list of the label in declared order, return the first entry whose
pattern finds a match, and otherwise the default of the label with the sentinel
matched_keywords = "default". -/
def match_activity (prediction_label : Int) (activity_note : String) : Activity × String :=
  let label_rules := activity_rules prediction_label
  let note_text := pyLower activity_note
  match label_rules.find? (fun e => rsearch e.pat note_text) with
  | some e => (mk_matched e, e.src)
  | none => (get_default_activity_for_label prediction_label, "default")

/-- Whether entry i of the rule list for a label finds a match in the lowered note. -/
def entry_matches (label : Int) (note : String) (i : Nat) : Bool :=
  match (activity_rules label)[i]? with
  | some e => rsearch e.pat (pyLower note)
  | none => false

/-- Whether the interests list activates the bears category (line 709). -/
def bears_active (interests : List String) : Bool :=
  interests.any (fun i => i == "bears" || i == "teddy")

/-- Whether the interests list activates the cars category (line 713). -/
def cars_active (interests : List String) : Bool :=
  interests.any (fun i => i == "cars" || i == "vehicles")

/-- Whether the interests list activates the animals category (line 719). -/
def animals_active (interests : List String) : Bool :=
  interests.any (fun i => i == "animals" || i == "pets")

/-- Whether the interests list activates the music category (line 722). -/
def music_active (interests : List String) : Bool :=
  interests.any (fun i => i == "music" || i == "songs")

/-- Name substitution of _personalize_activity (lines 686-688): a truthy name other
than the placeholder "Student" prefixes the description. -/
def apply_name_pers (a : Activity) (student_name : String) : Activity :=
  if student_name != "" && student_name != "Student" then
    { a with description := "For " ++ student_name ++ ": " ++ a.description }
  else a

/-- Age adjustment of _personalize_activity (lines 690-701). -/
def apply_age_pers (a : Activity) (student_age : Int) : Activity :=
  if student_age < 4 then
    { a with duration := "2-5 minutes", age_note := some "Shortened for younger student" }
  else if student_age > 8 then
    { a with
      duration :=
        if containsSub "5-8".data a.duration.data then "8-12 minutes"
        else if containsSub "2-3".data a.duration.data then "5-8 minutes"
        else a.duration,
      age_note := some "Extended for older student" }
  else a

/-- The bears block of _personalize_activity (lines 709-711): when active and some
material mentions "objects" (the str of the list contains it exactly when some
element does), the materials key is rebound to a fresh rewritten list. -/
def interest_bears (interests : List String) (a : Activity) : Activity :=
  if bears_active interests &&
      a.materials.any (fun m => containsSub "objects".data m.data) then
    { a with materials :=
        a.materials.map (fun m =>
          if containsSub "objects".data m.data then replaceAll "objects" "teddy bear counters" m
          else m) }
  else a

/-- The cars block (lines 713-717): append a material, and rename the Focus Basket
activity. -/
def interest_cars (interests : List String) (a : Activity) : Activity :=
  if cars_active interests then
    let b := { a with materials := a.materials ++ ["Toy cars for motivation"] }
    if b.name == "Focus Basket Activity" then
      { b with name := "Car Garage Sorting",
               description := replaceAll "objects" "toy cars" b.description }
    else b
  else a

/-- The animals block (lines 719-720). -/
def interest_animals (interests : List String) (a : Activity) : Activity :=
  if animals_active interests then
    { a with materials := a.materials ++ ["Animal figures or pictures"] }
  else a

/-- The music block (lines 722-725): append a material, and for a counting activity
(judged on the name current at this point) append a step. -/
def interest_music (interests : List String) (a : Activity) : Activity :=
  if music_active interests then
    let b := { a with materials := a.materials ++ ["Background music or songs"] }
    if containsSub "counting".data (pyLower b.name) then
      { b with steps := b.steps ++ ["Sing counting songs together"] }
    else b
  else a

/-- Interest injection of _personalize_activity (lines 703-725), applied only when the
interests list is truthy (non-empty): record the personalization text, then run the
four category blocks in source order. -/
def apply_interest_pers (a : Activity) (student_name : String) (interests : List String) : Activity :=
  if interests.isEmpty then a
  else
    let itext := "Incorporate " ++ student_name ++ "\x27s interests: " ++
      String.intercalate ", " interests
    interest_music interests (interest_animals interests (interest_cars interests
      (interest_bears interests { a with personalization := some itext })))

/-- _personalize_activity (lines 682-727) as a value-level transformation of the
activity record the caller passed in: name substitution, then age adjustment, then
interest injection, in source order. -/
def personalize_activity (a : Activity) (student_name : String) (student_age : Int)
    (interests : List String) : Activity :=
  apply_interest_pers (apply_age_pers (apply_name_pers a student_name) student_age)
    student_name interests

/-- _find_matching_activity (lines 600-632): match, then personalize, returning the
personalized activity together with matched_keywords and prediction_label. -/
def find_matching_activity (prediction_label : Int) (activity_note : String)
    (student_name : String) (student_age : Int) (interests : List String) :
    Activity × String × Int :=
  let m := match_activity prediction_label activity_note
  (personalize_activity m.1 student_name student_age interests, m.2, prediction_label)

/-- Index of the first rule entry whose pattern matches the lowered note. -/
def first_match_index (rules : List RuleEntry) (note : List Char) : Option Nat :=
  rules.findIdx? (fun e => rsearch e.pat note)

/-- Contents of the materials list object of a matched stored template after one call
of _find_matching_activity.  Both dict copies (lines 613 and 684) are shallow, so the
personalized record aliases the stored materials list.  The bears block (lines
709-711) rebinds the key to a fresh list, after which later appends no longer reach
the stored list; otherwise the appends of the cars, animals and music blocks (lines
714, 720, 723) mutate the stored list in source order. -/
def shared_materials_after (a : Activity) (interests : List String) : List String :=
  if interests.isEmpty then a.materials
  else if bears_active interests &&
      a.materials.any (fun m => containsSub "objects".data m.data) then a.materials
  else
    ((a.materials ++ (if cars_active interests then ["Toy cars for motivation"] else []))
        ++ (if animals_active interests then ["Animal figures or pictures"] else []))
      ++ (if music_active interests then ["Background music or songs"] else [])

/-- Contents of the steps list object of a matched stored template after one call of
_find_matching_activity.  The steps key is never rebound, so the append of the music
block (line 725) reaches the stored list; its guard reads the name current at that
point, which the cars block (lines 715-716) may have changed. -/
def shared_steps_after (a : Activity) (interests : List String) : List String :=
  let current_name :=
    if cars_active interests && a.name == "Focus Basket Activity" then "Car Garage Sorting"
    else a.name
  if !interests.isEmpty && music_active interests &&
      containsSub "counting".data (pyLower current_name) then
    a.steps ++ ["Sing counting songs together"]
  else a.steps

/-- The stored activity of entry i of the rule table for a label after one call of
_find_matching_activity with the given arguments.  Only the matched entry can change,
through the list aliasing described at shared_materials_after and shared_steps_after;
the string-valued keys are rebound on the copies only, and the default path works on
a dict built fresh inside _get_default_activity_for_label, so it never aliases the
table. -/
def table_entry_after (label : Int) (note : String) (_student_name : String)
    (_student_age : Int) (interests : List String) (i : Nat) : Option Activity :=
  match (activity_rules label)[i]? with
  | none => none
  | some e =>
      if first_match_index (activity_rules label) (pyLower note) = some i then
        some { e.activity with
                 materials := shared_materials_after e.activity interests,
                 steps := shared_steps_after e.activity interests }
      else some e.activity

/-- The external collaborators of the engine: whether the pickled artifact loaded, the
text vectorizer, the classifier label and probability outputs on a feature vector,
and the advice map stored with the artifact.  They are opaque to this repository
(loaded from teach_smart_chatbot.pkl), so they are quantified over rather than
defined. -/
structure Env where
  is_loaded : Bool
  vectorize : String → List ℚ
  classifier_predict : List ℚ → Int
  classifier_proba : List ℚ → List ℚ
  advice_map : Int → Option String

/-- Ordinal encoding of one assessment value (lines 42-44 of
teachsmart_for_project.py, lines 43-45 of standalone_pkl_usage.py): 1 on a
case-insensitive exact match of "benar", 1/2 when the lowered value contains
"bantu", and 0 otherwise. -/
def ordinal_feature (s : String) : ℚ :=
  if pyLower s = "benar".data then 1
  else if containsSub "bantu".data (pyLower s) then 1/2
  else 0

/-- The feature vector X of lines 46-49: the three ordinal features followed by the
vectorized note (np.hstack keeps this order). -/
def feature_vector (env : Env) (value_1 value_2 value_3 activity_note : String) : List ℚ :=
  [ordinal_feature value_1, ordinal_feature value_2, ordinal_feature value_3]
    ++ env.vectorize activity_note

/-- Python max over a list (max of an empty sequence raises a ValueError, hence the
none case), written as a left scan like the builtin. -/
def pymaxAux (m : ℚ) : List ℚ → ℚ
  | [] => m
  | x :: xs => pymaxAux (max m x) xs

/-- Python max over a list of rationals. -/
def pymax : List ℚ → Option ℚ
  | [] => none
  | x :: xs => some (pymaxAux x xs)

/-- The condition_names dict of lines 56-60. -/
def condition_names (label : Int) : Option String :=
  if label = 0 then some "Struggling - Needs Immediate Support"
  else if label = 1 then some "Progressing - Needs Continued Support"
  else if label = 2 then some "Thriving - Ready for Next Level"
  else none

/-- The dict returned by predict_student_condition on success (lines 62-72), with the
nested probabilities dict flattened into its three fixed keys. -/
structure PredictionResult where
  label : Int
  condition : String
  advice : String
  confidence : ℚ
  prob_struggling : ℚ
  prob_needs_support : ℚ
  prob_doing_well : ℚ
deriving DecidableEq, Repr

/-- What one call of predict_student_condition can produce: the success dict, the
non-raising error record of line 39, or a propagating Python exception. -/
inductive PredictOutcome
  | ok (r : PredictionResult)
  | errorRecord (msg : String)
  | raised (msg : String)
deriving DecidableEq, Repr

/-- predict_student_condition (lines 34-72).  The checks appear in the evaluation
order of the returned dict literal: the condition_names lookup (KeyError on a label
outside 0..2), the advice_map lookup (KeyError on a missing key), max over the raw
probability array (ValueError when it is empty).  The probabilities entries read
index 0 unguarded, which is safe once max succeeded, and default indices 1 and 2 to
0 when the array is shorter (lines 67-71). -/
def predict_student_condition (env : Env)
    (value_1 value_2 value_3 activity_note : String) : PredictOutcome :=
  if !env.is_loaded then .errorRecord "Model not loaded"
  else
    let X := feature_vector env value_1 value_2 value_3 activity_note
    let prediction := env.classifier_predict X
    let probabilities := env.classifier_proba X
    match condition_names prediction with
    | none => .raised "KeyError: condition_names"
    | some cond =>
      match env.advice_map prediction with
      | none => .raised "KeyError: advice_map"
      | some adv =>
        match pymax probabilities with
        | none => .raised "ValueError: max() arg is an empty sequence"
        | some conf =>
            .ok { label := prediction,
                  condition := cond,
                  advice := adv,
                  confidence := conf,
                  prob_struggling := probabilities.getD 0 0,
                  prob_needs_support :=
                    if probabilities.length > 1 then probabilities.getD 1 0 else 0,
                  prob_doing_well :=
                    if probabilities.length > 2 then probabilities.getD 2 0 else 0 }

/-- The assessment_data dict passed to predict_student_progress, whose keys are read
with get defaults "salah"/"" (lines 143-146). -/
structure AssessmentData where
  value_1 : Option String := none
  value_2 : Option String := none
  value_3 : Option String := none
  activity_note : Option String := none
deriving DecidableEq, Repr

/-- The dict returned by predict_student_progress: success, the error string of the
failure paths, and the prediction payload (which on the unreachable loaded-but-
error-record path would be the error dict itself, hence a PredictOutcome). -/
structure ProgressResult where
  success : Bool
  error : Option String := none
  prediction : Option PredictOutcome := none
deriving DecidableEq, Repr

/-- predict_student_progress (lines 131-157): an unloaded model short-circuits to a
structured failure; otherwise the call is wrapped in try/except, a raised exception
becomes success = false with its message, and any returned dict (the success dict,
or the error record that cannot occur while loaded) becomes success = true. -/
def predict_student_progress (env : Env) (assessment_data : AssessmentData) : ProgressResult :=
  if !env.is_loaded then
    { success := false, error := some "Trained model not available" }
  else
    match predict_student_condition env
        (assessment_data.value_1.getD "salah")
        (assessment_data.value_2.getD "salah")
        (assessment_data.value_3.getD "salah")
        (assessment_data.activity_note.getD "") with
    | .raised e => { success := false, error := some e }
    | outcome => { success := true, prediction := some outcome }

/-- The class [!.?] used by the greeting patterns. -/
def greetPunct (c : Char) : Bool := c == '!' || c == '.' || c == '?'

/-- The class dot of the regex (any character except a newline). -/
def anyNotNL (c : Char) : Bool := !(c == '\n')

/-- The eight greeting words shared by the patterns of _is_greeting (lines 743-754). -/
def greet_words : List String :=
  ["hello", "hi", "hey", "good morning", "good afternoon", "good evening", "halo", "hai"]

/-- The anchored tail of every greeting pattern: optional whitespace then optional
trailing punctuation, with the end anchor handled by exact matching. -/
def greetTail : List GItem :=
  [GItem.cls isWS Quant.star, GItem.cls greetPunct Quant.star]

/-- The compiled greeting patterns of _is_greeting (lines 743-755), with the two inner
alternation groups of the framed patterns expanded into one sequence per greeting
word.  Every source pattern is anchored by both a caret and a dollar, so a sequence
matches when it consumes the whole stripped text. -/
def greeting_seqs : List (List GItem) :=
  (greet_words.map (fun w => lits w ++ greetTail))
    ++ (greet_words.map (fun w =>
          lits "teacher question:" ++ [GItem.cls isWS Quant.star] ++ lits w ++ greetTail))
    ++ (greet_words.map (fun w =>
          lits "for student " ++ [GItem.cls anyNotNL Quant.one, GItem.cls anyNotNL Quant.star]
            ++ lits ":" ++ [GItem.cls isWS Quant.star] ++ lits w ++ greetTail))

/-- _is_greeting (lines 741-758): lower-case and strip the input, then test it against
the fixed greeting patterns. -/
def is_greeting (aet_target : String) : Bool :=
  let target_lower := pyStrip (pyLower aet_target)
  greeting_seqs.any (fun p => matchSeq true p target_lower)

/-- The activity_keywords list of _is_activity_request (lines 731-737). -/
def activity_keywords : List String :=
  ["activities", "activity", "kegiatan", "latihan",
   "what can i do", "how can i help", "suggestions",
   "ideas", "strategies", "exercises",
   "how do i teach", "how to teach", "teaching",
   "turn-taking", "turn taking", "sharing", "social skills"]

/-- _is_activity_request (lines 729-739): any keyword occurs in the lowered input. -/
def is_activity_request (aet_target : String) : Bool :=
  activity_keywords.any (fun k => containsSub k.data (pyLower aet_target))

/-- The five pre-authored greeting strings of _generate_greeting_response
(lines 762-768). -/
def greeting_responses : List String :=
  ["Hello! How can I assist you today?",
   "Hi there! I\x27m here to help you create educational resources for students with autism. What would you like to work on?",
   "Good day! I\x27m TeachSmart, your AI assistant for autism-friendly educational content. How can I help you today?",
   "Hello! I\x27m ready to help you create personalized learning activities. What\x27s your teaching goal today?",
   "Hi! I\x27m here to support you with autism-friendly educational resources. What can I help you with?"]

/-- The metadata dict of the response schema.  Different paths emit different key
sets, so every key is optional with none meaning absent. -/
structure Metadata where
  student_age : Option Int := none
  aet_target : Option String := none
  ability_level : Option String := none
  format_type : Option String := none
  model_available : Option Bool := none
  activity_type : Option String := none
  prediction_label : Option Int := none
  response_type : Option String := none
  provider : Option String := none
deriving DecidableEq, Repr

/-- A response of generate_learning_resource and its helpers. -/
structure GenResponse where
  success : Bool
  content : String
  timestamp : String
  metadata : Metadata
deriving DecidableEq, Repr

/-- _generate_greeting_response (lines 760-781).  The wall-clock timestamp and the
uniform choice of random.choice are external effects, modelled by a timestamp string
and an arbitrary natural number taken modulo the list length. -/
def generate_greeting_response (ts : String) (rand : Nat) : GenResponse :=
  { success := true,
    content := greeting_responses.getD (rand % greeting_responses.length) "",
    timestamp := ts,
    metadata := { response_type := some "greeting", provider := some "TeachSmart Trained Model" } }

/-- _extract_student_name, first pattern (line 903).  The regex
(?:for|student)(ws+)([A-Z][a-z]+) is scanned at each position left to right; greedy
runs never need backtracking here because the follow-up classes are disjoint from the
repeated ones, so each quantified piece takes its maximal run. -/
def namePat1At (s : List Char) : Option (List Char) :=
  let afterKw : List Char → Option (List Char) := fun rest =>
    let ws := rest.takeWhile isWS
    if ws.isEmpty then none
    else
      match rest.drop ws.length with
      | [] => none
      | c :: cs =>
          if c.isUpper then
            let lows := cs.takeWhile Char.isLower
            if lows.isEmpty then none else some (c :: lows)
          else none
  if startsWithL "for".data s then afterKw (s.drop 3)
  else if startsWithL "student".data s then afterKw (s.drop 7)
  else none

/-- _extract_student_name, second pattern (line 904): ([A-Z][a-z]+)(ws+)(will|can|needs). -/
def namePat2At (s : List Char) : Option (List Char) :=
  match s with
  | [] => none
  | c :: cs =>
      if c.isUpper then
        let lows := cs.takeWhile Char.isLower
        if lows.isEmpty then none
        else
          let rest := cs.drop lows.length
          let ws := rest.takeWhile isWS
          if ws.isEmpty then none
          else
            let rest2 := rest.drop ws.length
            if startsWithL "will".data rest2 || startsWithL "can".data rest2 ||
                startsWithL "needs".data rest2 then some (c :: lows)
            else none
      else none

/-- _extract_student_name, third pattern (line 905): ([A-Z][a-z]+)(ws+)(digits+)(ws*)
followed by an opening parenthesis. -/
def namePat3At (s : List Char) : Option (List Char) :=
  match s with
  | [] => none
  | c :: cs =>
      if c.isUpper then
        let lows := cs.takeWhile Char.isLower
        if lows.isEmpty then none
        else
          let rest := cs.drop lows.length
          let ws := rest.takeWhile isWS
          if ws.isEmpty then none
          else
            let rest2 := rest.drop ws.length
            let digits := rest2.takeWhile Char.isDigit
            if digits.isEmpty then none
            else
              let rest3 := rest2.drop digits.length
              match rest3.drop (rest3.takeWhile isWS).length with
              | '(' :: _ => some (c :: lows)
              | _ => none
      else none

/-- Leftmost re.search: try the position scanner at every start position. -/
def scanLeftmost (f : List Char → Option (List Char)) : List Char → Option (List Char)
  | [] => f []
  | c :: cs =>
      match f (c :: cs) with
      | some r => some r
      | none => scanLeftmost f cs

/-- _extract_student_name (lines 899-912): the three name patterns tried in order on
the raw (not lowered) text, falling back to "Student". -/
def extract_student_name (text : String) : String :=
  match scanLeftmost namePat1At text.data with
  | some n => String.mk n
  | none =>
    match scanLeftmost namePat2At text.data with
    | some n => String.mk n
    | none =>
      match scanLeftmost namePat3At text.data with
      | some n => String.mk n
      | none => "Student"

/-- The interest_keywords table of _extract_interests (lines 916-925), in dict
insertion order. -/
def interest_keywords : List (String × List String) :=
  [("bears", ["bear", "teddy", "bears"]),
   ("cars", ["car", "vehicle", "truck", "cars"]),
   ("animals", ["animal", "pet", "dog", "cat", "animals"]),
   ("music", ["music", "song", "singing", "songs"]),
   ("colors", ["color", "colorful", "rainbow", "colors"]),
   ("blocks", ["block", "building", "lego", "blocks"]),
   ("books", ["book", "story", "reading", "books"]),
   ("art", ["art", "drawing", "painting", "craft"])]

/-- _extract_interests (lines 914-934): every category one of whose trigger keywords
occurs in the lowered text, in table order. -/
def extract_interests (text : String) : List String :=
  (interest_keywords.filter
      (fun p => p.2.any (fun k => containsSub k.data (pyLower text)))).map Prod.fst

/-- The sample assessment dicts of _create_sample_assessment and _add_model_insights. -/
structure SampleAssessment where
  value_1 : String
  value_2 : String
  value_3 : String
  activity_note : String
deriving DecidableEq, Repr

/-- _create_sample_assessment (lines 936-1007): pick a canned assessment from
behavioral keywords in the request, else from the ability level. -/
def create_sample_assessment (ability_level : String) (_context : String)
    (aet_target : String) : SampleAssessment :=
  let t := pyLower aet_target
  let has := fun (w : String) => containsSub w.data t
  if has "tantrum" || has "meltdown" || has "crying" || has "upset" then
    { value_1 := "salah", value_2 := "salah", value_3 := "benar",
      activity_note := "anak tantrum dan tidak bisa konsentrasi" }
  else if has "turn-taking" || has "turn taking" || has "sharing" ||
      has "social skills" || has "peer interaction" then
    if ability_level = "emerging" then
      { value_1 := "salah", value_2 := "salah", value_3 := "benar",
        activity_note := "student needs help with turn-taking and sharing activities" }
    else if ability_level = "extending" then
      { value_1 := "benar", value_2 := "benar", value_3 := "benar",
        activity_note := "student ready for advanced turn-taking and peer interaction challenges" }
    else
      { value_1 := "benar", value_2 := "salah", value_3 := "benar",
        activity_note := "student learning turn-taking with visual supports and sharing activities" }
  else if has "help" || has "support" || has "assistance" || has "bantu" then
    { value_1 := "benar", value_2 := "salah", value_3 := "benar",
      activity_note := "anak membutuhkan bantuan untuk memahami instruksi" }
  else if has "independent" || has "advanced" || has "ready" || has "mandiri" then
    { value_1 := "benar", value_2 := "benar", value_3 := "benar",
      activity_note := "anak dapat mengikuti instruksi dengan baik dan mandiri" }
  else if ability_level = "emerging" then
    { value_1 := "salah", value_2 := "salah", value_3 := "benar",
      activity_note := "anak membutuhkan bantuan ekstra untuk memahami" }
  else if ability_level = "extending" then
    { value_1 := "benar", value_2 := "benar", value_3 := "benar",
      activity_note := "anak siap untuk tantangan yang lebih kompleks" }
  else
    { value_1 := "benar", value_2 := "salah", value_3 := "benar",
      activity_note := "anak mulai memahami dengan bantuan visual" }

/-- The sample assessment picked by _add_model_insights (lines 163-183) from the
ability level. -/
def insight_sample_assessment (ability_level : String) : SampleAssessment :=
  if ability_level = "emerging" then
    { value_1 := "salah", value_2 := "salah", value_3 := "benar",
      activity_note := "anak membutuhkan bantuan ekstra untuk memahami instruksi" }
  else if ability_level = "extending" then
    { value_1 := "benar", value_2 := "benar", value_3 := "benar",
      activity_note := "anak dapat mengikuti instruksi dengan baik dan mandiri" }
  else
    { value_1 := "benar", value_2 := "salah", value_3 := "benar",
      activity_note := "anak mulai memahami dengan bantuan visual" }

/-- The fixed markdown builders of the pipeline, abstracted as an explicit record of
pure string renderers: _generate_content with its meltdown/focus/general branches
(lines 210-348), the insight markdown of _add_model_insights (lines 188-208, which
interpolates Python float percent formatting), _format_mapped_activity_response
(lines 838-897) and _format_activities_as_content (lines 1156-1214).  No claim under
verification constrains these texts, and the percent formatting of binary floats has
no exact rational counterpart, so the theorems below are stated for every choice of
renderers. -/
structure Renderers where
  generate_content : Int → String → String → String → String → Bool → String → String
  render_insights : ProgressResult → String
  format_mapped : Activity → String → Int → PredictionResult → String → Int → String → String
  format_activities : List Activity → String → Int → String → String

/-- _add_model_insights (lines 159-208): run the model on a canned assessment for the
ability level and render the outcome (the classifier is invoked here whenever the
model is loaded). -/
def add_model_insights (env : Env) (r : Renderers) (_aet_target ability_level : String) : String :=
  let sample := insight_sample_assessment ability_level
  r.render_insights (predict_student_progress env
    { value_1 := some sample.value_1, value_2 := some sample.value_2,
      value_3 := some sample.value_3, activity_note := some sample.activity_note })

/-- The rule-based activity dicts of _get_math_activities (lines 1042-1075).  These
dicts omit the level/type keys; absent keys are modelled by the empty string, and the
records are only passed to the abstract formatter. -/
def get_math_activities (age : Int) (_level : String) (interests : List String) : List Activity :=
  if interests.contains "bears" then
    [{ name := "Counting Bears Adventure",
       description := "Use teddy bear counters in favorite colors",
       materials := ["Teddy bear counters", "Ice cube trays", "Number cards 1-10"],
       steps :=
         ["Start with 5 colorful teddy bears",
          "Show how to place one bear in each ice cube compartment",
          "Count together: \"One bear, two bears, three bears...\"",
          "Let student try with 3 bears first, then build up",
          "Sing counting songs while placing bears"],
       duration := "5-8 minutes", level := "", type := "" }]
  else
    [{ name := "Counting Practice",
       description := "Practice counting objects appropriate for age " ++ toString age,
       materials := ["Objects to count", "Number cards"],
       steps :=
         ["Start with 3-5 objects",
          "Demonstrate one-to-one correspondence",
          "Count together slowly",
          "Let student try independently",
          "Gradually increase number of objects"],
       duration := "5-8 minutes", level := "", type := "" }]

/-- _get_sorting_activities (lines 1077-1106). -/
def get_sorting_activities (_age : Int) (_level : String) (interests : List String) : List Activity :=
  if interests.contains "cars" then
    [{ name := "Car Garage Sorting",
       description := "Sort toy cars by color and size into garages",
       materials := ["Toy cars in different colors", "Small boxes as garages", "Labels"],
       steps :=
         ["Set up 4 \"garages\" (boxes) with color labels",
          "Start with 2 colors only",
          "Show: \"Red cars go in the red garage\"",
          "Let student touch and explore each car",
          "Gradually add more colors and sizes"],
       duration := "6-10 minutes", level := "", type := "" }]
  else
    [{ name := "Shape and Color Sorting",
       description := "Sort shapes by attributes",
       materials := ["Foam shapes", "Sorting containers", "Visual labels"],
       steps :=
         ["Start with 2 shapes and 2 colors",
          "Demonstrate sorting by one attribute",
          "Let student practice with guidance",
          "Gradually increase complexity",
          "Celebrate successful sorting"],
       duration := "5-8 minutes", level := "", type := "" }]

/-- _get_communication_activities (lines 1108-1122). -/
def get_communication_activities (_age : Int) (_level : String) (_interests : List String) :
    List Activity :=
  [{ name := "Following Instructions Practice",
     description := "Practice following 1-2 step instructions",
     materials := ["Visual instruction cards", "Simple objects", "Reward system"],
     steps :=
       ["Start with 1-step instructions",
        "Use visual supports with words",
        "Give clear, simple directions",
        "Wait for completion before next step",
        "Celebrate successful following"],
     duration := "5-10 minutes", level := "", type := "" }]

/-- _get_calming_activities (lines 1124-1138). -/
def get_calming_activities (_age : Int) (_level : String) (_interests : List String) :
    List Activity :=
  [{ name := "Calm Down Strategies",
     description := "Practice self-regulation techniques",
     materials := ["Quiet space", "Comfort items", "Visual cues"],
     steps :=
       ["Create designated calm space",
        "Teach deep breathing with visual cues",
        "Offer comfort items or fidgets",
        "Practice when student is calm first",
        "Use during actual upset moments"],
     duration := "3-10 minutes as needed", level := "", type := "" }]

/-- _get_general_activities (lines 1140-1154). -/
def get_general_activities (age : Int) (level : String) (_interests : List String) :
    List Activity :=
  [{ name := "Skill Building Activity",
     description := "Age-appropriate activity for " ++ toString age ++ "-year-old at "
       ++ level ++ " level",
     materials := ["Age-appropriate materials", "Visual supports"],
     steps :=
       ["Present clear, simple task",
        "Provide appropriate level of support",
        "Break into manageable steps",
        "Celebrate progress and effort",
        "Adjust difficulty as needed"],
     duration := "5-10 minutes", level := "", type := "" }]

/-- _generate_rule_based_activities (lines 1009-1040): pick a topic bucket by keyword,
build the activities, and return them formatted with the specific_activities
metadata. -/
def generate_rule_based_activities (env : Env) (r : Renderers) (ts : String)
    (aet_target : String) (student_age : Int) (ability_level : String)
    (interests : List String) : GenResponse :=
  let t := pyLower aet_target
  let has := fun (w : String) => containsSub w.data t
  let activities :=
    if has "count" || has "number" || has "math" then
      get_math_activities student_age ability_level interests
    else if has "shape" || has "color" || has "sort" then
      get_sorting_activities student_age ability_level interests
    else if has "communication" || has "talk" || has "speak" then
      get_communication_activities student_age ability_level interests
    else if has "calm" || has "tantrum" || has "upset" then
      get_calming_activities student_age ability_level interests
    else
      get_general_activities student_age ability_level interests
  { success := true,
    content := r.format_activities activities aet_target student_age ability_level,
    timestamp := ts,
    metadata := { student_age := some student_age, aet_target := some aet_target,
                  ability_level := some ability_level,
                  format_type := some "specific_activities",
                  model_available := some env.is_loaded } }

/-- _generate_specific_activity_response (lines 783-836): extract name and interests
from the request, build a canned assessment, and when the model is loaded and the
prediction succeeds, map it through _find_matching_activity into a mapped-activity
response; a raised prediction (or the error record a loaded model cannot produce)
falls back to the rule-based generator, as does an unloaded model. -/
def generate_specific_activity_response (env : Env) (r : Renderers) (ts : String)
    (aet_target : String) (student_age : Int) (ability_level : String)
    (context : String) : GenResponse :=
  let student_name := extract_student_name aet_target
  let interests := extract_interests aet_target
  let ad := create_sample_assessment ability_level context aet_target
  if env.is_loaded then
    match predict_student_condition env ad.value_1 ad.value_2 ad.value_3 ad.activity_note with
    | .ok pr =>
        let fm := find_matching_activity pr.label ad.activity_note student_name
          student_age interests
        { success := true,
          content := r.format_mapped fm.1 fm.2.1 fm.2.2 pr aet_target student_age ability_level,
          timestamp := ts,
          metadata := { student_age := some student_age, aet_target := some aet_target,
                        ability_level := some ability_level,
                        format_type := some "mapped_activity",
                        model_available := some true,
                        activity_type := some fm.1.type,
                        prediction_label := some fm.2.2 } }
    | _ => generate_rule_based_activities env r ts aet_target student_age ability_level interests
  else generate_rule_based_activities env r ts aet_target student_age ability_level interests

/-- generate_learning_resource (lines 89-129): the greeting check short-circuits
before anything else runs; activity requests route into the mapped-activity
generator; otherwise educational content is generated and, when the model is loaded,
the insight section (which invokes the classifier) is appended.  The one-second
sleep of line 102 has no observable effect in the model. -/
def generate_learning_resource (env : Env) (r : Renderers) (ts : String) (rand : Nat)
    (student_age : Int) (aet_target context ability_level format_type : String)
    (visual_support : Bool) (text_level : String) : GenResponse :=
  if is_greeting aet_target then generate_greeting_response ts rand
  else if is_activity_request aet_target then
    generate_specific_activity_response env r ts aet_target student_age ability_level context
  else
    let content := r.generate_content student_age aet_target context ability_level
      format_type visual_support text_level
    let content :=
      if env.is_loaded then content ++ add_model_insights env r aet_target ability_level
      else content
    { success := true,
      content := content,
      timestamp := ts,
      metadata := { student_age := some student_age, aet_target := some aet_target,
                    ability_level := some ability_level,
                    format_type := some format_type,
                    model_available := some env.is_loaded } }

/-- Membership from a successful indexed access. -/
theorem mem_of_getElem?_some {α : Type} {l : List α} {i : Nat} {a : α}
    (h : l[i]? = some a) : a ∈ l := by
  have hi : i < l.length := by
    by_contra hc
    simp [List.getElem?_eq_none (Nat.le_of_not_lt hc)] at h
  rw [List.getElem?_eq_getElem hi] at h
  exact Option.some_injective _ h ▸ l.getElem_mem hi

/-- List.find? returns the first satisfying element: from any index satisfying the
predicate we obtain the least such index, nothing below it satisfies, and find?
returns exactly its element. -/
theorem find?_first_spec {α : Type} (p : α → Bool) :
    ∀ (xs : List α) (i : Nat) (a : α), xs[i]? = some a → p a = true →
      ∃ (m : Nat) (b : α), xs[m]? = some b ∧ p b = true ∧
        (∀ k c, k < m → xs[k]? = some c → p c = false) ∧
        xs.find? p = some b ∧
        (∀ j c, xs[j]? = some c → p c = true → m ≤ j) := by
  intro xs
  induction xs with
  | nil => intro i a h; simp at h
  | cons x xs ih =>
    intro i a ha hpa
    cases hpx : p x with
    | true =>
      refine ⟨0, x, List.getElem?_cons_zero, hpx, ?_, ?_, ?_⟩
      · intro k c hk _; omega
      · exact List.find?_cons_of_pos _ hpx
      · intro j c _ _; exact Nat.zero_le j
    | false =>
      cases i with
      | zero =>
        rw [List.getElem?_cons_zero] at ha
        injection ha with ha2
        rw [ha2, hpa] at hpx
        cases hpx
      | succ n =>
        rw [List.getElem?_cons_succ] at ha
        obtain ⟨m, b, h1, h2, h3, h4, h5⟩ := ih n a ha hpa
        refine ⟨m + 1, b, ?_, h2, ?_, ?_, ?_⟩
        · rw [List.getElem?_cons_succ]; exact h1
        · intro k c hk hkc
          cases k with
          | zero =>
            rw [List.getElem?_cons_zero] at hkc
            injection hkc with hkc2
            rw [hkc2] at hpx
            exact hpx
          | succ k2 =>
            rw [List.getElem?_cons_succ] at hkc
            exact h3 k2 c (by omega) hkc
        · rw [List.find?_cons_of_neg _ (by simp [hpx]), h4]
        · intro j c hj hcj
          cases j with
          | zero =>
            rw [List.getElem?_cons_zero] at hj
            injection hj with hj2
            rw [hj2, hcj] at hpx
            cases hpx
          | succ j2 =>
            rw [List.getElem?_cons_succ] at hj
            have := h5 j2 c hj hcj
            omega

/-- With the default arguments of _find_matching_activity (placeholder name
"Student", age 5, no interests) personalization changes nothing. -/
theorem personalize_default_id (a : Activity) :
    personalize_activity a "Student" 5 [] = a := rfl

/-- The running maximum of pymaxAux dominates its initial value. -/
theorem pymaxAux_le_init : ∀ (xs : List ℚ) (m : ℚ), m ≤ pymaxAux m xs := by
  intro xs
  induction xs with
  | nil => intro m; exact le_refl m
  | cons x xs ih => intro m; exact le_trans (le_max_left m x) (ih (max m x))

/-- The running maximum of pymaxAux dominates every list element. -/
theorem pymaxAux_ge_mem : ∀ (xs : List ℚ) (m x : ℚ), x ∈ xs → x ≤ pymaxAux m xs := by
  intro xs
  induction xs with
  | nil => intro m x hx; cases hx
  | cons y ys ih =>
    intro m x hx
    cases hx with
    | head => exact le_trans (le_max_right m y) (pymaxAux_le_init ys (max m y))
    | tail _ h => exact ih (max m y) x h

/-- The result of pymaxAux is the initial value or a list element. -/
theorem pymaxAux_cases : ∀ (xs : List ℚ) (m : ℚ),
    pymaxAux m xs = m ∨ pymaxAux m xs ∈ xs := by
  intro xs
  induction xs with
  | nil => intro m; exact Or.inl rfl
  | cons y ys ih =>
    intro m
    cases ih (max m y) with
    | inl h =>
      cases max_choice m y with
      | inl h2 => exact Or.inl (by rw [pymaxAux, h, h2])
      | inr h2 => exact Or.inr (by rw [pymaxAux, h, h2]; exact List.mem_cons_self y ys)
    | inr h => exact Or.inr (List.mem_cons_of_mem y h)

/-- A successful Python max is an element of the list. -/
theorem pymax_mem {ps : List ℚ} {m : ℚ} (h : pymax ps = some m) : m ∈ ps := by
  cases ps with
  | nil => cases h
  | cons x xs =>
    injection h with h2
    cases pymaxAux_cases xs x with
    | inl h3 => rw [← h2, h3]; exact List.mem_cons_self x xs
    | inr h3 => rw [← h2]; exact List.mem_cons_of_mem x h3

/-- A successful Python max dominates every element of the list. -/
theorem pymax_ge {ps : List ℚ} {m : ℚ} (h : pymax ps = some m) :
    ∀ x ∈ ps, x ≤ m := by
  cases ps with
  | nil => cases h
  | cons y ys =>
    injection h with h2
    intro x hx
    cases hx with
    | head => rw [← h2]; exact pymaxAux_le_init ys y
    | tail _ h3 => rw [← h2]; exact pymaxAux_ge_mem ys y x h3

/-- The spec words for claim C4 name the arg-max of the probability distribution;
this follows those words: the first index whose value dominates the whole list
(an empty list, which cannot carry an arg-max, is sent to 0). -/
def spec_argmax_label (probs : List ℚ) : Int :=
  match (List.range probs.length).find?
      (fun i => probs.all (fun q => q ≤ probs.getD i 0)) with
  | some i => Int.ofNat i
  | none => 0

/-- The probability stored at the arg-max index is the Python max of the list. -/
theorem argmax_getD {ps : List ℚ} {m : ℚ} (h : pymax ps = some m) :
    ps.getD (spec_argmax_label ps).toNat 0 = m := by
  have hmem := pymax_mem h
  have hge := pymax_ge h
  obtain ⟨j, hjlen, hj⟩ := List.mem_iff_getElem.mp hmem
  have hgetDj : ps.getD j 0 = m := by
    rw [List.getD_eq_getElem?_getD, List.getElem?_eq_getElem hjlen]
    simpa using hj
  have hpredj : ps.all (fun q => q ≤ ps.getD j 0) = true := by
    rw [List.all_eq_true]
    intro q hq
    rw [hgetDj]
    exact decide_eq_true (hge q hq)
  cases hfind : (List.range ps.length).find?
      (fun i => ps.all (fun q => q ≤ ps.getD i 0)) with
  | none =>
    exfalso
    rw [List.find?_eq_none] at hfind
    exact hfind j (List.mem_range.mpr hjlen) hpredj
  | some i =>
    have hi_pred := List.find?_some hfind
    have hilen : i < ps.length := List.mem_range.mp (List.mem_of_find?_eq_some hfind)
    have hgetDi : ps.getD i 0 = ps[i] := by
      rw [List.getD_eq_getElem?_getD, List.getElem?_eq_getElem hilen]
      rfl
    have h1 : ps[i] ≤ m := hge _ (ps.getElem_mem hilen)
    have h2 : m ≤ ps.getD i 0 := by
      rw [List.all_eq_true] at hi_pred
      exact of_decide_eq_true (hi_pred m hmem)
    have heq : ps.getD i 0 = m := le_antisymm (hgetDi ▸ h1) h2
    unfold spec_argmax_label
    rw [hfind]
    simpa using heq

/-- Name substitution touches the description only. -/
theorem name_pers_fields (a : Activity) (nm : String) :
    (apply_name_pers a nm).duration = a.duration ∧
    (apply_name_pers a nm).age_note = a.age_note := by
  unfold apply_name_pers
  constructor <;> (split <;> rfl)

/-- The duration and age_note fields after the age adjustment, as explicit
conditionals. -/
theorem age_pers_fields (b : Activity) (age : Int) :
    (apply_age_pers b age).duration =
      (if age < 4 then "2-5 minutes"
       else if age > 8 then
         (if containsSub "5-8".data b.duration.data then "8-12 minutes"
          else if containsSub "2-3".data b.duration.data then "5-8 minutes"
          else b.duration)
       else b.duration) ∧
    (apply_age_pers b age).age_note =
      (if age < 4 then some "Shortened for younger student"
       else if age > 8 then some "Extended for older student"
       else b.age_note) := by
  unfold apply_age_pers
  constructor <;> (split_ifs <;> rfl)

/-- The bears block never touches duration or age_note. -/
theorem interest_bears_fields (ints : List String) (a : Activity) :
    (interest_bears ints a).duration = a.duration ∧
    (interest_bears ints a).age_note = a.age_note := by
  unfold interest_bears
  constructor <;> (split <;> rfl)

/-- The cars block never touches duration or age_note. -/
theorem interest_cars_fields (ints : List String) (a : Activity) :
    (interest_cars ints a).duration = a.duration ∧
    (interest_cars ints a).age_note = a.age_note := by
  unfold interest_cars
  constructor <;> (split <;> first | rfl | (dsimp only; split <;> rfl))

/-- The animals block never touches duration or age_note. -/
theorem interest_animals_fields (ints : List String) (a : Activity) :
    (interest_animals ints a).duration = a.duration ∧
    (interest_animals ints a).age_note = a.age_note := by
  unfold interest_animals
  constructor <;> (split <;> rfl)

/-- The music block never touches duration or age_note. -/
theorem interest_music_fields (ints : List String) (a : Activity) :
    (interest_music ints a).duration = a.duration ∧
    (interest_music ints a).age_note = a.age_note := by
  unfold interest_music
  constructor <;> (split <;> first | rfl | (dsimp only; split <;> rfl))

/-- Interest injection never touches the duration or the age_note field. -/
theorem interest_pers_fields (a : Activity) (nm : String) (ints : List String) :
    (apply_interest_pers a nm ints).duration = a.duration ∧
    (apply_interest_pers a nm ints).age_note = a.age_note := by
  unfold apply_interest_pers
  split
  · exact ⟨rfl, rfl⟩
  · constructor
    · rw [(interest_music_fields _ _).1, (interest_animals_fields _ _).1,
          (interest_cars_fields _ _).1, (interest_bears_fields _ _).1]
    · rw [(interest_music_fields _ _).2, (interest_animals_fields _ _).2,
          (interest_cars_fields _ _).2, (interest_bears_fields _ _).2]

/-- On a greeting input, generate_learning_resource is the greeting response, for
every environment and every renderer. -/
theorem gen_greeting_eq (env : Env) (r : Renderers) (ts : String) (rand : Nat)
    (student_age : Int) (aet_target context ability_level format_type : String)
    (visual_support : Bool) (text_level : String)
    (h : is_greeting aet_target = true) :
    generate_learning_resource env r ts rand student_age aet_target context ability_level
      format_type visual_support text_level = generate_greeting_response ts rand := by
  unfold generate_learning_resource
  rw [if_pos h]

/-- The content of the greeting response is one of the five fixed strings. -/
theorem greeting_content_mem (ts : String) (rand : Nat) :
    (generate_greeting_response ts rand).content ∈ greeting_responses := by
  have h5 : rand % greeting_responses.length < greeting_responses.length :=
    Nat.mod_lt _ (by decide)
  show greeting_responses.getD (rand % greeting_responses.length) "" ∈ greeting_responses
  rw [List.getD_eq_getElem?_getD, List.getElem?_eq_getElem h5]
  exact greeting_responses.getElem_mem h5

/-- A loaded sample environment whose classifier reports label 0 together with a
probability array whose arg-max is index 1 (integer-valued rationals keep every
evaluation kernel-computable; the engine never inspects whether the array is a
distribution); used to instantiate theorems at concrete inputs. -/
def sampleEnv : Env :=
  { is_loaded := true,
    vectorize := fun _ => [],
    classifier_predict := fun _ => 0,
    classifier_proba := fun _ => [2, 5, 3],
    advice_map := fun _ => some "Provide support" }

/-- An environment whose model artifact failed to load. -/
def unloadedEnv : Env :=
  { is_loaded := false,
    vectorize := fun _ => [],
    classifier_predict := fun _ => 0,
    classifier_proba := fun _ => [],
    advice_map := fun _ => none }

/-- A sample environment whose classifier returns an empty probability array. -/
def emptyProbaEnv : Env := { sampleEnv with classifier_proba := fun _ => [] }

/-- A sample environment whose classifier returns a single-entry probability array. -/
def shortProbaEnv : Env := { sampleEnv with classifier_proba := fun _ => [7] }

/-- A concrete renderer instantiation (the abstract markdown builders all return the
empty string), used to evaluate theorems at concrete inputs. -/
def trivialRenderers : Renderers :=
  { generate_content := fun _ _ _ _ _ _ _ => "",
    render_insights := fun _ => "",
    format_mapped := fun _ _ _ _ _ _ _ => "",
    format_activities := fun _ _ _ _ => "" }

/-- Claim C1: activity matching is first-match-wins over the rule list of the label
in declared order.  Whenever two entries i < j of the rule list both match the note,
the matcher returns the entry of the least matching index m (so m ≤ i), with its
pattern text as matched_keywords; in particular, for label 0 and the note "child is
having a tantrum and cannot focus" the returned template is the tantrum/meltdown
template "Deep Pressure Calm Down" and not the attention template "Focus Basket
Activity". -/
theorem first_match_wins :
    (∀ (label : Int) (note : String) (i j : Nat), i < j →
        entry_matches label note i = true → entry_matches label note j = true →
        ∃ (m : Nat) (e : RuleEntry), m ≤ i ∧ (activity_rules label)[m]? = some e ∧
          rsearch e.pat (pyLower note) = true ∧
          (∀ k e2, k < m → (activity_rules label)[k]? = some e2 →
            rsearch e2.pat (pyLower note) = false) ∧
          match_activity label note = (mk_matched e, e.src) ∧
          find_matching_activity label note "Student" 5 [] = (mk_matched e, e.src, label))
    ∧ (find_matching_activity 0 "child is having a tantrum and cannot focus"
        "Student" 5 []).1.name = "Deep Pressure Calm Down"
    ∧ (find_matching_activity 0 "child is having a tantrum and cannot focus"
        "Student" 5 []).1.name ≠ "Focus Basket Activity" := by
  refine ⟨?_, by decide, by decide⟩
  intro label note i j _ hi _
  have hi2 : ∃ e, (activity_rules label)[i]? = some e ∧
      rsearch e.pat (pyLower note) = true := by
    cases hgi : (activity_rules label)[i]? with
    | none => unfold entry_matches at hi; rw [hgi] at hi; cases hi
    | some e =>
      refine ⟨e, rfl, ?_⟩
      unfold entry_matches at hi
      rw [hgi] at hi
      exact hi
  obtain ⟨e, hgi, hie⟩ := hi2
  obtain ⟨m, b, h1, h2, h3, h4, h5⟩ :=
    find?_first_spec (fun e => rsearch e.pat (pyLower note)) (activity_rules label) i e hgi hie
  have hma : match_activity label note = (mk_matched b, b.src) := by
    unfold match_activity
    dsimp only
    rw [h4]
  refine ⟨m, b, h5 i e hgi hie, h1, h2, h3, hma, ?_⟩
  unfold find_matching_activity
  rw [hma]
  dsimp only
  rw [personalize_default_id]

/-- Witness for C1: label 0 with the note "tantrum attention", which matches both
entry 0 (the tantrum pattern) and entry 1 (the attention pattern). -/
theorem first_match_wins_witness :
    ∃ (m : Nat) (e : RuleEntry), m ≤ 0 ∧ (activity_rules 0)[m]? = some e ∧
      rsearch e.pat (pyLower "tantrum attention") = true ∧
      (∀ k e2, k < m → (activity_rules 0)[k]? = some e2 →
        rsearch e2.pat (pyLower "tantrum attention") = false) ∧
      match_activity 0 "tantrum attention" = (mk_matched e, e.src) ∧
      find_matching_activity 0 "tantrum attention" "Student" 5 []
        = (mk_matched e, e.src, 0) :=
  first_match_wins.1 0 "tantrum attention" 0 1 (by decide) (by decide) (by decide)

/-- Claim C2: when no keyword pattern of the label matches the note, the matcher
returns the default template of the label with the sentinel matched_keywords =
"default"; and each label in 0..2 owns exactly one default template in the defaults
table. -/
theorem default_fallback_completeness :
    (∀ (label : Int) (note : String), (label = 0 ∨ label = 1 ∨ label = 2) →
        (activity_rules label).all (fun e => !rsearch e.pat (pyLower note)) = true →
        match_activity label note = (get_default_activity_for_label label, "default") ∧
        find_matching_activity label note "Student" 5 [] =
          (get_default_activity_for_label label, "default", label))
    ∧ (∀ label : Int, (label = 0 ∨ label = 1 ∨ label = 2) →
        (default_activities.filter (fun p => p.1 == label)).length = 1) := by
  constructor
  · intro label note _ hall
    have hnone : (activity_rules label).find? (fun e => rsearch e.pat (pyLower note))
        = none := by
      rw [List.find?_eq_none]
      intro e he
      have := List.all_eq_true.mp hall e he
      simpa using this
    have hma : match_activity label note = (get_default_activity_for_label label, "default") := by
      unfold match_activity
      dsimp only
      rw [hnone]
    constructor
    · exact hma
    · unfold find_matching_activity
      rw [hma]
      dsimp only
      rw [personalize_default_id]
  · rintro label (rfl | rfl | rfl) <;> decide

/-- Witness for C2: label 0 with the empty note, which no pattern matches. -/
theorem default_fallback_completeness_witness :
    (match_activity 0 "" = (get_default_activity_for_label 0, "default") ∧
      find_matching_activity 0 "" "Student" 5 [] =
        (get_default_activity_for_label 0, "default", 0)) ∧
    (default_activities.filter (fun p => p.1 == (0 : Int))).length = 1 :=
  ⟨default_fallback_completeness.1 0 "" (Or.inl rfl) (by decide),
   default_fallback_completeness.2 0 (Or.inl rfl)⟩

/-- Claim C3: the ordinal encoding of an assessment value is the three-way
case-insensitive lookup of the source: an exact match of the correct token "benar"
gives 1, otherwise a substring match of the assisted token "bantu" gives 1/2, and
any other string (unrecognized tokens included) gives 0; the encoding is a total
function, so no input raises. -/
theorem ordinal_encoding_three_way : ∀ s : String,
    (pyLower s = "benar".data → ordinal_feature s = 1) ∧
    (pyLower s ≠ "benar".data → containsSub "bantu".data (pyLower s) = true →
      ordinal_feature s = 1/2) ∧
    (pyLower s ≠ "benar".data → containsSub "bantu".data (pyLower s) = false →
      ordinal_feature s = 0) := by
  intro s
  refine ⟨fun h => ?_, fun h1 h2 => ?_, fun h1 h2 => ?_⟩
  · unfold ordinal_feature
    rw [if_pos h]
  · unfold ordinal_feature
    rw [if_neg h1, if_pos h2]
  · unfold ordinal_feature
    rw [if_neg h1, if_neg (by simp [h2])]

/-- Witness for C3 at the assisted token in mixed case. -/
theorem ordinal_encoding_three_way_witness :
    pyLower "diBantu" ≠ "benar".data ∧
    containsSub "bantu".data (pyLower "diBantu") = true ∧
    ordinal_feature "diBantu" = 1/2 :=
  ⟨by decide, by decide, (ordinal_encoding_three_way "diBantu").2.1 (by decide) (by decide)⟩

/-- Claim C4 as stated is false on the code: the label of the result is whatever the
external classifier predicted, not the arg-max of the probability distribution it
reported.  At a classifier that supplies label 0 with a probability array whose
arg-max is index 1, the result keeps label 0. -/
theorem label_argmax_counterexample :
    ∃ rec : PredictionResult,
      predict_student_condition sampleEnv "salah" "salah" "salah" "catatan" = .ok rec ∧
      rec.label ≠ spec_argmax_label
        (sampleEnv.classifier_proba
          (feature_vector sampleEnv "salah" "salah" "salah" "catatan")) := by
  refine ⟨_, rfl, by decide⟩

/-- The success record of predict_student_condition at sampleEnv. -/
def sample_prediction : PredictionResult :=
  { label := 0,
    condition := "Struggling - Needs Immediate Support",
    advice := "Provide support",
    confidence := 5,
    prob_struggling := 2,
    prob_needs_support := 5,
    prob_doing_well := 3 }

/-- Claim C4 amended: the result of predict_student_condition passes the label of the
external classifier through unchanged, and its confidence is the Python max of the
reported probability array; consequently, whenever the classifier itself supplies the
arg-max label, the confidence equals the probability stored at that label. -/
theorem classification_result_passthrough :
    ∀ (env : Env) (v1 v2 v3 note : String) (rec : PredictionResult),
      predict_student_condition env v1 v2 v3 note = .ok rec →
      rec.label = env.classifier_predict (feature_vector env v1 v2 v3 note) ∧
      pymax (env.classifier_proba (feature_vector env v1 v2 v3 note))
        = some rec.confidence ∧
      (rec.label = spec_argmax_label (env.classifier_proba (feature_vector env v1 v2 v3 note)) →
        (env.classifier_proba (feature_vector env v1 v2 v3 note)).getD rec.label.toNat 0
          = rec.confidence) := by
  intro env v1 v2 v3 note rec h
  unfold predict_student_condition at h
  cases hld : env.is_loaded with
  | false => rw [hld] at h; cases h
  | true =>
    rw [hld] at h
    rw [if_neg (by decide : ¬ (!true : Bool) = true)] at h
    dsimp only at h
    cases hcn : condition_names
        (env.classifier_predict (feature_vector env v1 v2 v3 note)) with
    | none => rw [hcn] at h; cases h
    | some cond =>
      rw [hcn] at h
      dsimp only at h
      cases hadv : env.advice_map
          (env.classifier_predict (feature_vector env v1 v2 v3 note)) with
      | none => rw [hadv] at h; cases h
      | some adv =>
        rw [hadv] at h
        dsimp only at h
        cases hpm : pymax
            (env.classifier_proba (feature_vector env v1 v2 v3 note)) with
        | none => rw [hpm] at h; cases h
        | some conf =>
          rw [hpm] at h
          dsimp only at h
          injection h with h2
          subst h2
          refine ⟨rfl, ?_, ?_⟩
          · rfl
          · intro harg
            dsimp only at harg ⊢
            rw [harg]
            exact argmax_getD hpm

/-- Witness for the amended C4 at the sample environment. -/
theorem classification_result_passthrough_witness :
    sample_prediction.label
        = sampleEnv.classifier_predict (feature_vector sampleEnv "benar" "salah" "salah" "x") ∧
    pymax (sampleEnv.classifier_proba (feature_vector sampleEnv "benar" "salah" "salah" "x"))
        = some sample_prediction.confidence :=
  ⟨(classification_result_passthrough sampleEnv "benar" "salah" "salah" "x"
      sample_prediction (by decide)).1,
   (classification_result_passthrough sampleEnv "benar" "salah" "salah" "x"
      sample_prediction (by decide)).2.1⟩

/-- Claim C5 is wrong about the code: the two dict copies are shallow, so the
personalized record aliases the list fields of the stored template, and the append of
the cars block mutates the rule table itself.  At label 0, the note "anak tidak
fokus" (matching entry 1, the Focus Basket template) and interests ["cars"], the
stored materials list of entry 1 gains "Toy cars for motivation". -/
theorem rule_table_mutation_at_failing_input :
    table_entry_after 0 "anak tidak fokus" "Student" 5 ["cars"] 1 ≠
      ((activity_rules 0)[1]?).map (fun e => e.activity) ∧
    (table_entry_after 0 "anak tidak fokus" "Student" 5 ["cars"] 1).map
        (fun a => a.materials) =
      some ["2 baskets", "5 large colorful objects", "Timer", "Toy cars for motivation"] ∧
    ((activity_rules 0)[1]?).map (fun e => e.activity.materials) =
      some ["2 baskets", "5 large colorful objects", "Timer"] := by
  refine ⟨by decide, by decide, by decide⟩

/-- Claim C6: the two age bands of _personalize_activity.  Below 4 the duration
becomes the fixed short range with the young age note; above 8 the duration goes
through the two-entry lengthening map keyed on the original duration string (a
duration matching neither key is left as it is) with the old age note; from 4 to 8
inclusive both fields are left untouched. -/
theorem age_band_personalization :
    ∀ (a : Activity) (nm : String) (age : Int) (ints : List String),
      (age < 4 →
        (personalize_activity a nm age ints).duration = "2-5 minutes" ∧
        (personalize_activity a nm age ints).age_note
          = some "Shortened for younger student") ∧
      (age > 8 →
        (personalize_activity a nm age ints).duration =
          (if containsSub "5-8".data a.duration.data then "8-12 minutes"
           else if containsSub "2-3".data a.duration.data then "5-8 minutes"
           else a.duration) ∧
        (personalize_activity a nm age ints).age_note
          = some "Extended for older student") ∧
      (4 ≤ age → age ≤ 8 →
        (personalize_activity a nm age ints).duration = a.duration ∧
        (personalize_activity a nm age ints).age_note = a.age_note) := by
  intro a nm age ints
  have hp : ∀ b : Activity,
      (apply_interest_pers b nm ints).duration = b.duration ∧
      (apply_interest_pers b nm ints).age_note = b.age_note :=
    fun b => interest_pers_fields b nm ints
  have hage := age_pers_fields (apply_name_pers a nm) age
  have hname := name_pers_fields a nm
  have hdur : (personalize_activity a nm age ints).duration
      = (apply_age_pers (apply_name_pers a nm) age).duration :=
    (hp (apply_age_pers (apply_name_pers a nm) age)).1
  have hnote : (personalize_activity a nm age ints).age_note
      = (apply_age_pers (apply_name_pers a nm) age).age_note :=
    (hp (apply_age_pers (apply_name_pers a nm) age)).2
  refine ⟨fun h4 => ?_, fun h8 => ?_, fun hlo hhi => ?_⟩
  · constructor
    · rw [hdur, hage.1, if_pos h4]
    · rw [hnote, hage.2, if_pos h4]
  · have hnot4 : ¬ age < 4 := by omega
    constructor
    · rw [hdur, hage.1, if_neg hnot4, if_pos h8, hname.1]
    · rw [hnote, hage.2, if_neg hnot4, if_pos h8]
  · have hnot4 : ¬ age < 4 := by omega
    have hnot8 : ¬ age > 8 := by omega
    constructor
    · rw [hdur, hage.1, if_neg hnot4, if_neg hnot8, hname.1]
    · rw [hnote, hage.2, if_neg hnot4, if_neg hnot8, hname.2]

/-- Witness for C6 at the label-1 default template (duration "5-8 minutes") and
age 10. -/
theorem age_band_personalization_witness :
    (personalize_activity default_activity_1 "Student" 10 []).duration =
      (if containsSub "5-8".data default_activity_1.duration.data then "8-12 minutes"
       else if containsSub "2-3".data default_activity_1.duration.data then "5-8 minutes"
       else default_activity_1.duration) ∧
    (personalize_activity default_activity_1 "Student" 10 []).age_note
      = some "Extended for older student" :=
  (age_band_personalization default_activity_1 "Student" 10 []).2.1 (by decide)

/-- Claim C8 as stated is false on the code for the empty probability array: max of
an empty sequence raises a ValueError before the probabilities dict is built. -/
theorem empty_probabilities_raises :
    predict_student_condition emptyProbaEnv "salah" "salah" "salah" "note" =
      .raised "ValueError: max() arg is an empty sequence" := by decide

/-- Claim C8 amended: for probability arrays with one or two entries (and a label the
condition and advice tables know), predict_student_condition succeeds and the missing
entries of the probabilities record default to 0: doing_well is 0 whenever fewer than
three entries arrive, and needs_support is also 0 when only one arrives; the entries
that did arrive are passed through. -/
theorem short_probabilities_default_zero :
    ∀ (env : Env) (v1 v2 v3 note : String),
      env.is_loaded = true →
      (env.classifier_predict (feature_vector env v1 v2 v3 note) = 0 ∨
        env.classifier_predict (feature_vector env v1 v2 v3 note) = 1 ∨
        env.classifier_predict (feature_vector env v1 v2 v3 note) = 2) →
      (env.advice_map (env.classifier_predict (feature_vector env v1 v2 v3 note))).isSome
        = true →
      1 ≤ (env.classifier_proba (feature_vector env v1 v2 v3 note)).length →
      (env.classifier_proba (feature_vector env v1 v2 v3 note)).length < 3 →
      ∃ rec : PredictionResult,
        predict_student_condition env v1 v2 v3 note = .ok rec ∧
        rec.prob_doing_well = 0 ∧
        ((env.classifier_proba (feature_vector env v1 v2 v3 note)).length = 1 →
          rec.prob_needs_support = 0) ∧
        rec.prob_struggling
          = (env.classifier_proba (feature_vector env v1 v2 v3 note)).getD 0 0 ∧
        (1 < (env.classifier_proba (feature_vector env v1 v2 v3 note)).length →
          rec.prob_needs_support
            = (env.classifier_proba (feature_vector env v1 v2 v3 note)).getD 1 0) := by
  intro env v1 v2 v3 note hld hpred hadv hlen1 hlen3
  obtain ⟨cond, hcond⟩ : ∃ c, condition_names
      (env.classifier_predict (feature_vector env v1 v2 v3 note)) = some c := by
    rcases hpred with h | h | h <;> rw [h] <;> exact ⟨_, rfl⟩
  obtain ⟨adv, hadvs⟩ := Option.isSome_iff_exists.mp hadv
  obtain ⟨conf, hpm⟩ : ∃ m, pymax
      (env.classifier_proba (feature_vector env v1 v2 v3 note)) = some m := by
    cases hcp : env.classifier_proba (feature_vector env v1 v2 v3 note) with
    | nil => rw [hcp] at hlen1; cases hlen1
    | cons x xs => exact ⟨_, rfl⟩
  have hok : predict_student_condition env v1 v2 v3 note = .ok
      { label := env.classifier_predict (feature_vector env v1 v2 v3 note),
        condition := cond, advice := adv, confidence := conf,
        prob_struggling :=
          (env.classifier_proba (feature_vector env v1 v2 v3 note)).getD 0 0,
        prob_needs_support :=
          if (env.classifier_proba (feature_vector env v1 v2 v3 note)).length > 1 then
            (env.classifier_proba (feature_vector env v1 v2 v3 note)).getD 1 0
          else 0,
        prob_doing_well :=
          if (env.classifier_proba (feature_vector env v1 v2 v3 note)).length > 2 then
            (env.classifier_proba (feature_vector env v1 v2 v3 note)).getD 2 0
          else 0 } := by
    unfold predict_student_condition
    rw [hld]
    rw [if_neg (by decide : ¬ (!true : Bool) = true)]
    dsimp only
    rw [hcond, hadvs, hpm]
  refine ⟨_, hok, ?_, ?_, rfl, ?_⟩
  · dsimp only
    rw [if_neg (by omega : ¬ (env.classifier_proba
      (feature_vector env v1 v2 v3 note)).length > 2)]
  · intro h1
    dsimp only
    rw [if_neg (by omega : ¬ (env.classifier_proba
      (feature_vector env v1 v2 v3 note)).length > 1)]
  · intro h1
    dsimp only
    rw [if_pos (by omega : (env.classifier_proba
      (feature_vector env v1 v2 v3 note)).length > 1)]

/-- Witness for the amended C8 at a single-entry probability array. -/
theorem short_probabilities_default_zero_witness :
    ∃ rec : PredictionResult,
      predict_student_condition shortProbaEnv "salah" "salah" "salah" "note" = .ok rec ∧
      rec.prob_doing_well = 0 ∧
      ((shortProbaEnv.classifier_proba
          (feature_vector shortProbaEnv "salah" "salah" "salah" "note")).length = 1 →
        rec.prob_needs_support = 0) ∧
      rec.prob_struggling = (shortProbaEnv.classifier_proba
          (feature_vector shortProbaEnv "salah" "salah" "salah" "note")).getD 0 0 ∧
      (1 < (shortProbaEnv.classifier_proba
          (feature_vector shortProbaEnv "salah" "salah" "salah" "note")).length →
        rec.prob_needs_support = (shortProbaEnv.classifier_proba
          (feature_vector shortProbaEnv "salah" "salah" "salah" "note")).getD 1 0) :=
  short_probabilities_default_zero shortProbaEnv "salah" "salah" "salah" "note"
    (by decide) (by decide) (by decide) (by decide) (by decide)

/-- Claim C7: on any input the greeting detector accepts, generate_learning_resource
is exactly the greeting response — the same response for every environment and every
renderer, so neither the classifier nor the matching pipeline can influence it — and
that response is successful with one of the five fixed greeting strings as content. -/
theorem greeting_short_circuit :
    ∀ (env env2 : Env) (r r2 : Renderers) (ts : String) (rand : Nat) (student_age : Int)
      (aet_target context ability_level format_type : String) (visual_support : Bool)
      (text_level : String),
      is_greeting aet_target = true →
      generate_learning_resource env r ts rand student_age aet_target context
          ability_level format_type visual_support text_level
        = generate_greeting_response ts rand ∧
      generate_learning_resource env r ts rand student_age aet_target context
          ability_level format_type visual_support text_level
        = generate_learning_resource env2 r2 ts rand student_age aet_target context
            ability_level format_type visual_support text_level ∧
      (generate_learning_resource env r ts rand student_age aet_target context
          ability_level format_type visual_support text_level).success = true ∧
      (generate_learning_resource env r ts rand student_age aet_target context
          ability_level format_type visual_support text_level).content
        ∈ greeting_responses := by
  intro env env2 r r2 ts rand age t c al ft vs tl h
  have h1 := gen_greeting_eq env r ts rand age t c al ft vs tl h
  have h2 := gen_greeting_eq env2 r2 ts rand age t c al ft vs tl h
  refine ⟨h1, h1.trans h2.symm, ?_, ?_⟩
  · rw [h1]; rfl
  · rw [h1]; exact greeting_content_mem ts rand

/-- Witness for C7 at the input "hello" with a loaded model. -/
theorem greeting_short_circuit_witness :
    generate_learning_resource sampleEnv trivialRenderers "t" 7 6 "hello" "" "developing"
        "worksheet" true "simple" = generate_greeting_response "t" 7 ∧
    (generate_learning_resource sampleEnv trivialRenderers "t" 7 6 "hello" "" "developing"
        "worksheet" true "simple").success = true ∧
    (generate_learning_resource sampleEnv trivialRenderers "t" 7 6 "hello" "" "developing"
        "worksheet" true "simple").content ∈ greeting_responses :=
  ⟨(greeting_short_circuit sampleEnv sampleEnv trivialRenderers trivialRenderers "t" 7 6
      "hello" "" "developing" "worksheet" true "simple" (by decide)).1,
   (greeting_short_circuit sampleEnv sampleEnv trivialRenderers trivialRenderers "t" 7 6
      "hello" "" "developing" "worksheet" true "simple" (by decide)).2.2.1,
   (greeting_short_circuit sampleEnv sampleEnv trivialRenderers trivialRenderers "t" 7 6
      "hello" "" "developing" "worksheet" true "simple" (by decide)).2.2.2⟩

/-- Claim C9: with an unloaded model, predict_student_condition returns the structured
error record (it never raises), predict_student_progress fails uniformly with
success = false and the fixed error string, and the greeting path still returns its
normal successful response with one of the fixed greeting strings. -/
theorem model_unavailable_uniform_failure :
    ∀ env : Env, env.is_loaded = false →
      (∀ v1 v2 v3 note : String,
        predict_student_condition env v1 v2 v3 note = .errorRecord "Model not loaded") ∧
      (∀ d : AssessmentData,
        predict_student_progress env d =
          { success := false, error := some "Trained model not available",
            prediction := none }) ∧
      (∀ (r : Renderers) (ts : String) (rand : Nat) (student_age : Int)
          (aet_target context ability_level format_type : String)
          (visual_support : Bool) (text_level : String),
        is_greeting aet_target = true →
        generate_learning_resource env r ts rand student_age aet_target context
            ability_level format_type visual_support text_level
          = generate_greeting_response ts rand ∧
        (generate_learning_resource env r ts rand student_age aet_target context
            ability_level format_type visual_support text_level).success = true ∧
        (generate_learning_resource env r ts rand student_age aet_target context
            ability_level format_type visual_support text_level).content
          ∈ greeting_responses) := by
  intro env h
  refine ⟨?_, ?_, ?_⟩
  · intro v1 v2 v3 note
    unfold predict_student_condition
    rw [h]
    rfl
  · intro d
    unfold predict_student_progress
    rw [h]
    rfl
  · intro r ts rand age t c al ft vs tl hg
    have h1 := gen_greeting_eq env r ts rand age t c al ft vs tl hg
    exact ⟨h1, by rw [h1]; rfl, by rw [h1]; exact greeting_content_mem ts rand⟩

/-- Witness for C9 at an unloaded environment and the greeting "hi". -/
theorem model_unavailable_uniform_failure_witness :
    predict_student_condition unloadedEnv "benar" "salah" "bantu" "note"
      = .errorRecord "Model not loaded" ∧
    predict_student_progress unloadedEnv {} =
      { success := false, error := some "Trained model not available",
        prediction := none } ∧
    generate_learning_resource unloadedEnv trivialRenderers "t" 3 7 "hi" "" "developing"
        "worksheet" true "simple" = generate_greeting_response "t" 3 ∧
    (generate_learning_resource unloadedEnv trivialRenderers "t" 3 7 "hi" "" "developing"
        "worksheet" true "simple").content ∈ greeting_responses :=
  ⟨(model_unavailable_uniform_failure unloadedEnv rfl).1 "benar" "salah" "bantu" "note",
   (model_unavailable_uniform_failure unloadedEnv rfl).2.1 {},
   ((model_unavailable_uniform_failure unloadedEnv rfl).2.2 trivialRenderers "t" 3 7 "hi"
      "" "developing" "worksheet" true "simple" (by decide)).1,
   ((model_unavailable_uniform_failure unloadedEnv rfl).2.2 trivialRenderers "t" 3 7 "hi"
      "" "developing" "worksheet" true "simple" (by decide)).2.2⟩

/-- Claim C10: a label outside 0..2 has the empty rule list (the dict get default),
so nothing matches and the matcher falls back to the label-1 default "Supported
Learning Activity" with the sentinel matched_keywords = "default"; no failure
occurs. -/
theorem unknown_label_default_fallback :
    ∀ label : Int, label ≠ 0 → label ≠ 1 → label ≠ 2 → ∀ note : String,
      activity_rules label = [] ∧
      get_default_activity_for_label label = default_activity_1 ∧
      match_activity label note = (default_activity_1, "default") ∧
      find_matching_activity label note "Student" 5 []
        = (default_activity_1, "default", label) ∧
      default_activity_1.name = "Supported Learning Activity" := by
  intro label h0 h1 h2 note
  have hrules : activity_rules label = [] := by
    unfold activity_rules
    rw [if_neg h0, if_neg h1, if_neg h2]
  have e0 : ((0 : Int) == label) = false := by
    rw [beq_eq_false_iff_ne]
    exact fun hc => h0 hc.symm
  have e1 : ((1 : Int) == label) = false := by
    rw [beq_eq_false_iff_ne]
    exact fun hc => h1 hc.symm
  have e2 : ((2 : Int) == label) = false := by
    rw [beq_eq_false_iff_ne]
    exact fun hc => h2 hc.symm
  have hdef : get_default_activity_for_label label = default_activity_1 := by
    unfold get_default_activity_for_label default_activities
    rw [List.find?_cons_of_neg _ (by simp [e0]),
        List.find?_cons_of_neg _ (by simp [e1]),
        List.find?_cons_of_neg _ (by simp [e2])]
    rfl
  have hma : match_activity label note = (default_activity_1, "default") := by
    unfold match_activity
    dsimp only
    rw [hrules, ← hdef]
    rfl
  refine ⟨hrules, hdef, hma, ?_, rfl⟩
  unfold find_matching_activity
  rw [hma]
  dsimp only
  rw [personalize_default_id]

/-- Witness for C10 at label 3. -/
theorem unknown_label_default_fallback_witness :
    activity_rules 3 = [] ∧
    get_default_activity_for_label 3 = default_activity_1 ∧
    match_activity 3 "anak tantrum" = (default_activity_1, "default") ∧
    find_matching_activity 3 "anak tantrum" "Student" 5 []
      = (default_activity_1, "default", 3) ∧
    default_activity_1.name = "Supported Learning Activity" :=
  unknown_label_default_fallback 3 (by decide) (by decide) (by decide) "anak tantrum"
